import Mathlib

/-!
Verification of the OAB scraping pipeline (brpl20/oab_sa_server).

Shallow embedding of the Python sources:
  * `checker.py`                                        → namespace `Checker`
  * `request_lawyers_fix_state.py`                      → namespace `FixState`
  * `request_lawyers_with_society_retry_errorr_with_delay.py` → namespace `Rswd`
  * `oab_scraper_modified.py` / `request_100s.py`       → namespace `Oab100`

Python dict records become a fixed structure `LawyerRecord`; a key that may be
absent (or may hold `None`) becomes an `Option` field; the keys of the record
that the pipeline never touches are collected in the `rest` field.  Network and
browser effects are passed in as explicit environments (oracles): a function
from attempt number to the outcome the I/O layer would have produced.
-/

set_option maxRecDepth 10000

/-- Python truthiness of an optional string value (`if not x`): `None` and the
empty string are falsy. -/
def truthyOptStr : Option String → Bool
  | none => false
  | some s => s ≠ ""

/-! Python string primitives, modelled over the character list of the string so
that they compute by kernel reduction (the core `String` wrappers use
well-founded recursion and do not). -/

/-- `str.upper()` (ASCII, which is all the sources feed it). -/
def pyUpper (s : String) : String := String.mk (s.data.map Char.toUpper)

/-- `str.lower()` (ASCII). -/
def pyLower (s : String) : String := String.mk (s.data.map Char.toLower)

/-- `str.strip()`: drop whitespace from both ends. -/
def pyStrip (s : String) : String :=
  String.mk (((s.data.dropWhile Char.isWhitespace).reverse.dropWhile Char.isWhitespace).reverse)

/-- Helper for `pySplit`: accumulate the current segment (reversed). -/
def pySplitAux (sep : Char) : List Char → List Char → List String
  | [], acc => [String.mk acc.reverse]
  | c :: cs, acc =>
      if c = sep then String.mk acc.reverse :: pySplitAux sep cs []
      else pySplitAux sep cs (c :: acc)

/-- `str.split(sep)` for a one-character separator: `"MG_185929".split("_")`
gives `["MG", "185929"]`, `"xx".split("_")` gives `["xx"]`. -/
def pySplit (sep : Char) (s : String) : List String := pySplitAux sep s.data []

/-- `sub in s` (Python substring containment). -/
def subOccurs (p : List Char) : List Char → Bool
  | [] => p.isEmpty
  | c :: cs => p.isPrefixOf (c :: cs) || subOccurs p cs

/-- `sub in s` on strings. -/
def pyContains (s sub : String) : Bool := subOccurs sub.data s.data

/-- Fuel-driven helper for `pyReplaceEmpty`: remove non-overlapping occurrences
of `p`, left to right. -/
def removeAllAux (p : List Char) : Nat → List Char → List Char
  | 0, l => l
  | _ + 1, [] => []
  | fuel + 1, c :: cs =>
      if p.isPrefixOf (c :: cs) && !p.isEmpty then
        removeAllAux p fuel (List.drop (p.length - 1) cs)
      else c :: removeAllAux p fuel cs

/-- `s.replace(sub, '')`: remove every (non-overlapping) occurrence of `sub`. -/
def pyReplaceEmpty (s sub : String) : String :=
  String.mk (removeAllAux sub.data s.data.length s.data)

/-- Python `f"{x}"` rendering of an optional string: `None` prints as "None". -/
def pyStrOpt : Option String → String
  | none => "None"
  | some s => s

/-- Partnership stub, the five fields copied from each entry of the registry's
`Sociedades` list (`Insc, NomeSoci, IdtSoci, SiglUf, Url`). -/
structure SocStub where
  insc : String
  nomeSoci : String
  idtSoci : String
  siglUf : String
  url : String
deriving Repr, DecidableEq

/-- One partner row parsed from the modal's `.socContainer` table. -/
structure Socio where
  numero : String
  nome : String
  nome_social : String
  tipo : String
  cna_link : String
deriving Repr, DecidableEq

/-- The dictionary built by `extract_modal_data`. -/
structure ModalData where
  firm_name : Option String
  inscricao : Option String
  estado : Option String
  situacao : Option String
  endereco : Option String
  telefones : Option String
  socios : List Socio
deriving Repr, DecidableEq

/-- The dictionary returned by `get_modal_data_with_selenium` (the `timestamp`
field, a wall-clock reading, is omitted from the model). -/
structure ModalResult where
  extraction_method : String
  content_loaded : Bool
  error : Option String
  url : String
  modal_data : Option ModalData
  extraction_success : Nat
deriving Repr, DecidableEq

/-- The dictionary built by `process_sociedade_async` for one successfully
fetched partnership (`processed_at`, a wall-clock reading, is omitted). -/
structure FinalResult where
  lawyer_name : String
  lawyer_state : String
  lawyer_regnum : String
  basic_info : SocStub
  modal_data : ModalResult
deriving Repr, DecidableEq

/-- A lawyer record from the batch file.  Keys that may be absent are `Option`
fields (`none` = key absent or `None`); remaining keys live in `rest`. -/
structure LawyerRecord where
  full_name : String
  oab_id : Option String
  state : Option String
  processed : Bool
  has_society : Option Bool
  corrected_full_name : Option String
  society_link : Option String
  society_basic_details : Option (List SocStub)
  society_complete_details : Option (List FinalResult)
  rest : List (String × String)
deriving Repr, DecidableEq

namespace Checker

/-- The 27 valid Brazilian state codes from `checker.py`. -/
def valid_states : List String :=
  ["AC", "AL", "AP", "AM", "BA", "CE", "DF", "ES", "GO",
   "MA", "MT", "MS", "MG", "PA", "PB", "PR", "PE", "PI",
   "RJ", "RN", "RS", "RO", "RR", "SC", "SP", "SE", "TO"]

/-- `checker.py` `clean_and_validate_state`: keep only letters of the
uppercased string, truncate to 2 characters, and return the result only if it
is a member of the 27-element valid-state set. -/
def clean_and_validate_state (state : Option String) : Option String :=
  if truthyOptStr state = false then none
  else
    let cleaned0 := String.mk ((pyUpper (state.getD "")).data.filter Char.isAlpha)
    let cleaned := if cleaned0.data.length ≥ 2 then String.mk (cleaned0.data.take 2) else cleaned0
    if valid_states.contains cleaned then some cleaned else none

/-- `checker.py` `extract_state_from_oab_id`: split on `'_'`, and validate the
first segment through `clean_and_validate_state`. -/
def extract_state_from_oab_id (oab_id : Option String) : Option String :=
  if truthyOptStr oab_id = false then none
  else
    let parts := pySplit '_' (oab_id.getD "")
    if parts.length ≥ 2 then clean_and_validate_state (some (parts.headD ""))
    else none

end Checker

namespace FixState

/-- `request_lawyers_fix_state.py` `extract_state_from_oab_id`: split on `'_'`,
uppercase the first segment, and accept it whenever it is exactly 2 alphabetic
characters — membership in the valid-state set is NOT checked in this copy. -/
def extract_state_from_oab_id (oab_id : Option String) : Option String :=
  if truthyOptStr oab_id = false then none
  else
    let parts := pySplit '_' (oab_id.getD "")
    if parts.length ≥ 2 then
      let estado_correto := pyUpper (parts.headD "")
      if estado_correto.data.length = 2 && estado_correto.data.all Char.isAlpha then
        some estado_correto
      else none
    else none

/-- The interpolated reason string produced on a state mismatch:
`f"estado inconsistente: {current_state} != {estado_correto} (de oab_id)"`. -/
def estadoInconsistenteReason (current_state : Option String) (estado_correto : String) : String :=
  "estado inconsistente: " ++ pyStrOpt current_state ++ " != " ++ estado_correto ++ " (de oab_id)"

/-- The PRIORITY CHECK opening `should_process_record` (factored out of its
straight-line code): `some estado_correto` when `oab_id` is truthy, yields a
state code, and that code differs from the stored `state`. -/
def mismatchFrom (record : LawyerRecord) : Option String :=
  if truthyOptStr record.oab_id then
    match extract_state_from_oab_id record.oab_id with
    | some estado_correto =>
        if record.state ≠ some estado_correto then some estado_correto else none
    | none => none
  else none

/-- `request_lawyers_fix_state.py` `should_process_record`: the state-mismatch
priority check, then the three completeness scenarios. -/
def should_process_record (record : LawyerRecord) : Bool × String :=
  match mismatchFrom record with
  | some estado_correto => (true, estadoInconsistenteReason record.state estado_correto)
  | none =>
    -- Scenario 1: record doesn't have "processed": true
    if record.processed = false then (true, "não processado")
    else
      let society_basic := record.society_basic_details.getD []
      let society_complete := record.society_complete_details.getD []
      -- Scenario 2: has_society is True but either array is empty
      if record.has_society.getD false &&
          (society_basic.isEmpty || society_complete.isEmpty) then
        (true, "sociedades incompletas")
      -- has_society is None: society status never determined
      else if record.has_society = none then
        (true, "status de sociedade não determinado")
      else
        (false, "completo")

/-- `request_lawyers_fix_state.py` `clean_inconsistent_data`: copy the record,
reset `processed` and `has_society`, and delete the four derived keys. -/
def clean_inconsistent_data (record : LawyerRecord) : LawyerRecord :=
  let cleaned_record := record
  let cleaned_record := { cleaned_record with processed := false }
  let cleaned_record := { cleaned_record with has_society := some false }
  let cleaned_record := { cleaned_record with corrected_full_name := none }
  let cleaned_record := { cleaned_record with society_link := none }
  let cleaned_record := { cleaned_record with society_basic_details := none }
  let cleaned_record := { cleaned_record with society_complete_details := none }
  cleaned_record

/-- Does the priority state-mismatch check of `should_process_record` fire? -/
def stateMismatchCheck (record : LawyerRecord) : Bool :=
  (mismatchFrom record).isSome

end FixState

namespace Rswd

/-- `request_lawyers_with_society_retry_errorr_with_delay.py`
`should_process_record`: the three completeness scenarios (this copy has no
state-mismatch check). -/
def should_process_record (record : LawyerRecord) : Bool × String :=
  -- Scenario 1: record doesn't have "processed": true
  if record.processed = false then (true, "não processado")
  else
    let society_basic := record.society_basic_details.getD []
    let society_complete := record.society_complete_details.getD []
    -- Scenario 2: has_society is True but either array is empty
    if record.has_society.getD false &&
        (society_basic.isEmpty || society_complete.isEmpty) then
      (true, "sociedades incompletas")
    -- has_society is None: society status never determined
    else if record.has_society = none then
      (true, "status de sociedade não determinado")
    else
      (false, "completo")

end Rswd

/-! ## HTML model for the modal parser

`extract_modal_data` receives the serialized markup of the modal and parses it
with BeautifulSoup.  The parsed document is modelled as a tree; parsing itself
(an external library) is not modelled — a literal markup fixture corresponds to
the literal tree value.  `Html`/`HtmlList` are a mutual pair (rather than
`List Html`) so that the traversals below are structurally recursive and
compute by kernel reduction. -/

mutual
inductive Html where
  | elem (tag : String) (attrs : List (String × String)) (children : HtmlList)
  | text (s : String)
inductive HtmlList where
  | nil
  | cons (h : Html) (t : HtmlList)
end

/-- Build an `HtmlList` from a `List Html` (fixture-construction sugar). -/
def HtmlList.ofList : List Html → HtmlList
  | [] => .nil
  | h :: t => .cons h (HtmlList.ofList t)

/-- The whitespace-separated class tokens of an attribute list. -/
def classTokens (attrs : List (String × String)) : List String :=
  pySplit ' ' ((attrs.lookup "class").getD "")

/-- Does the element's `class` attribute contain the token `cls`? -/
def hasClass (cls : String) (attrs : List (String × String)) : Bool :=
  (classTokens attrs).contains cls

mutual
/-- BeautifulSoup `.text` / `get_text()`: concatenation of all descendant
strings, document order. -/
def textOf : Html → List Char
  | .text s => s.data
  | .elem _ _ cs => textOfList cs
def textOfList : HtmlList → List Char
  | .nil => []
  | .cons c cs => textOf c ++ textOfList cs
end

mutual
/-- BeautifulSoup `get_text(strip=True)`: each descendant string stripped, then
concatenated in document order. -/
def textStripOf : Html → List Char
  | .text s => (pyStrip s).data
  | .elem _ _ cs => textStripOfList cs
def textStripOfList : HtmlList → List Char
  | .nil => []
  | .cons c cs => textStripOf c ++ textStripOfList cs
end

/-- `n.get_text(strip=True)` as a string. -/
def getTextStrip (n : Html) : String := String.mk (textStripOf n)

/-- `n.text` as a string. -/
def getText (n : Html) : String := String.mk (textOf n)

mutual
/-- CSS descendant selection `select('.cls tag')`: all `tag` elements having a
proper ancestor with class `cls`, in document (pre-)order.  `inside` records
whether such an ancestor has been passed. -/
def selectDescNode (cls tag : String) (inside : Bool) : Html → List Html
  | .text _ => []
  | .elem t a cs =>
      (if inside && t == tag then [Html.elem t a cs] else []) ++
        selectDescList cls tag (inside || hasClass cls a) cs
def selectDescList (cls tag : String) (inside : Bool) : HtmlList → List Html
  | .nil => []
  | .cons c cs => selectDescNode cls tag inside c ++ selectDescList cls tag inside cs
end

mutual
/-- CSS class selection `select('.cls')`: all elements whose class attribute
contains the token `cls`, in document order. -/
def selectClassNode (cls : String) : Html → List Html
  | .text _ => []
  | .elem t a cs =>
      (if hasClass cls a then [Html.elem t a cs] else []) ++ selectClassList cls cs
def selectClassList (cls : String) : HtmlList → List Html
  | .nil => []
  | .cons c cs => selectClassNode cls c ++ selectClassList cls cs
end

/-- Is this node a `<b>` tag whose BeautifulSoup `.string` (single text child)
contains `label`?  (`soup.find('b', string=lambda t: t and label in t)`.) -/
def isLabeledB (label : String) : Html → Bool
  | .elem t _ (.cons (.text s) .nil) => t == "b" && subOccurs label.data s.data
  | _ => false

mutual
/-- `soup.find('b', string=...).parent`: the parent element of the first
(document-order) `<b>` whose string contains `label`.  (A matching document
root has no parent element; the sources never hit that case.) -/
def findLabelParent (label : String) : Html → Option Html
  | .text _ => none
  | .elem t a cs => findLabelParentList label (.elem t a cs) cs
def findLabelParentList (label : String) (parent : Html) : HtmlList → Option Html
  | .nil => none
  | .cons c cs =>
      if isLabeledB label c then some parent
      else
        match findLabelParent label c with
        | some p => some p
        | none => findLabelParentList label parent cs
end

mutual
/-- `node.find_all(tag)`: all descendant elements with the given tag name, in
document order (the node itself is not included). -/
def findAllTagList (tag : String) : HtmlList → List Html
  | .nil => []
  | .cons c cs => findAllTagNode tag c ++ findAllTagList tag cs
def findAllTagNode (tag : String) : Html → List Html
  | .text _ => []
  | .elem t a cs => (if t == tag then [Html.elem t a cs] else []) ++ findAllTagList tag cs
end

/-- `node.find_all(tag)` on an element. -/
def findAllTag (tag : String) : Html → List Html
  | .text _ => []
  | .elem _ _ cs => findAllTagList tag cs

/-- `node.get(attr, default)`. -/
def attrGet (n : Html) (attr default : String) : String :=
  match n with
  | .elem _ a _ => (a.lookup attr).getD default
  | .text _ => default

/-- A labeled field: locate the `<b>` node containing `label`, take the
stripped text of its parent, and strip the label prefix
(`elem.parent.get_text(strip=True).replace(label, '').strip()`). -/
def labeledField (label : String) (soup : Html) : Option String :=
  (findLabelParent label soup).map (fun p => pyStrip (pyReplaceEmpty (getTextStrip p) label))

/-- `extract_modal_data` (identical copies in
`request_lawyers_with_society_retry_errorr_with_delay.py` and
`request_lawyers_fix_state.py`): parse the modal markup into the result
dictionary.  Missing nodes yield `none`; a partner row is kept only when it
has at least 4 `<td>` columns. -/
def extract_modal_data (soup : Html) : ModalData :=
  { firm_name :=
      (selectDescNode "modal-title" "b" false soup).head?.map (fun n => pyStrip (getText n))
    inscricao := labeledField "Inscrição:" soup
    estado := labeledField "Estado:" soup
    situacao := (selectClassNode "label" soup).head?.map (fun n => pyStrip (getText n))
    endereco := labeledField "Endereço:" soup
    telefones := labeledField "Telefones:" soup
    socios :=
      (selectDescNode "socContainer" "tr" false soup).filterMap (fun row =>
        match findAllTag "td" row with
        | c0 :: c1 :: c2 :: c3 :: _ =>
            some { numero := getTextStrip c0
                   nome := getTextStrip c1
                   nome_social := getTextStrip c2
                   tipo := getTextStrip c3
                   cna_link := attrGet row "data-cnalink" "" }
        | _ => none) }

/-! ## Exceptions, network outcomes, and the retry wrapper -/

/-- Python exception classes the pipeline distinguishes: `RequestException`
(optionally carrying a response status), any other `Exception`, and the
`NameError` raised by evaluating an unbound name. -/
inductive PyExc where
  | requestException (status : Option Nat) (msg : String)
  | generic (msg : String)
  | nameError (msg : String)
deriving Repr, DecidableEq

/-- Outcome of one low-level HTTP attempt inside `make_request_with_retry`,
supplied by the environment. -/
inductive HttpAttempt (α : Type) where
  | noSession
  | respNone
  | raiseStatus (status : Nat) (msg : String)
  | excMsg (msg : String)
  | ok (body : α)
deriving Repr, DecidableEq

/-- The terminal message `f"Request failed after {max_retries} attempts: {msg}"`. -/
def wrapFailMsg (max_retries : Nat) (msg : String) : String :=
  "Request failed after " ++ toString max_retries ++ " attempts: " ++ msg

namespace Rswd

/-- Attempt loop of `make_request_with_retry` (identical copies in
`request_lawyers_with_society_retry_errorr_with_delay.py` and
`request_lawyers_fix_state.py`, the latter only adding `verify=False` to the
request options).  Every failure — including a non-2xx status raised by
`raise_for_status` — is caught by the blanket `except Exception` clause and,
after the final attempt, re-raised as a PLAIN `Exception` wrapping the last
error text; the class of the original exception is not preserved.
`remaining` is the number of loop iterations left (`max_retries - attempt`). -/
def make_request_with_retry_go (attempts : Nat → HttpAttempt α)
    (max_retries attempt remaining : Nat) : Except PyExc α :=
  match remaining with
  | 0 => .error (.generic ("Request failed after " ++ toString max_retries ++ " attempts"))
  | rem + 1 =>
    match attempts attempt with
    | .ok r => .ok r
    | .noSession =>
        if rem > 0 then make_request_with_retry_go attempts max_retries (attempt + 1) rem
        else .error (.generic (wrapFailMsg max_retries
          "Failed to create session after all retries"))
    | .respNone =>
        if rem > 0 then make_request_with_retry_go attempts max_retries (attempt + 1) rem
        else .error (.generic (wrapFailMsg max_retries "Response is None after all retries"))
    | .raiseStatus _ msg =>
        if rem > 0 then make_request_with_retry_go attempts max_retries (attempt + 1) rem
        else .error (.generic (wrapFailMsg max_retries msg))
    | .excMsg msg =>
        if rem > 0 then make_request_with_retry_go attempts max_retries (attempt + 1) rem
        else .error (.generic (wrapFailMsg max_retries msg))

/-- `make_request_with_retry(method, url, max_retries, ...)`. -/
def make_request_with_retry (attempts : Nat → HttpAttempt α) (max_retries : Nat) :
    Except PyExc α :=
  make_request_with_retry_go attempts max_retries 0 max_retries

/-- Per-attempt outcome of the rendered modal fetch, supplied by the
environment: the wait for `.modal-content` timed out, some other exception was
raised during the attempt, or the modal rendered with the given markup. -/
inductive RenderOutcome where
  | timeout
  | excOther (msg : String)
  | modalHtml (h : Html)

/-- Attempt loop of `get_modal_data_with_selenium` in
`request_lawyers_with_society_retry_errorr_with_delay.py`.  Both
`TimeoutException` and the blanket `except Exception` convert the final
failure into a structured result dictionary; no exception escapes.  (The
`else` branch testing `if modal_data:` is unreachable: `extract_modal_data`
returns a non-empty — hence truthy — dictionary.)  The `.ok none` at fuel 0
models the implicit `return None` were the loop ever to fall through. -/
def get_modal_selenium_go (outcomes : Nat → RenderOutcome) (url : String)
    (max_retries attempt remaining : Nat) : Except PyExc (Option ModalResult) :=
  match remaining with
  | 0 => .ok none
  | rem + 1 =>
    match outcomes attempt with
    | .modalHtml h =>
        let modal_data := extract_modal_data h
        .ok (some
          { extraction_method := "specific_modal_parser"
            content_loaded := true
            error := none
            url := url
            modal_data := some modal_data
            extraction_success := if truthyOptStr modal_data.firm_name then 5 else 3 })
    | .timeout =>
        if rem > 0 then get_modal_selenium_go outcomes url max_retries (attempt + 1) rem
        else .ok (some
          { extraction_method := "specific_modal_parser"
            content_loaded := false
            error := some ("Timeout waiting for modal to appear at " ++ url)
            url := url
            modal_data := none
            extraction_success := 0 })
    | .excOther msg =>
        if rem > 0 then get_modal_selenium_go outcomes url max_retries (attempt + 1) rem
        else .ok (some
          { extraction_method := "specific_modal_parser"
            content_loaded := false
            error := some msg
            url := url
            modal_data := none
            extraction_success := 0 })

/-- `get_modal_data_with_selenium(url, max_wait, max_retries, retry_delay)`
(`max_wait` and `retry_delay` only parameterize waiting, which the model does
not observe). -/
def get_modal_data_with_selenium (outcomes : Nat → RenderOutcome) (url : String)
    (_max_wait max_retries _retry_delay : Nat) : Except PyExc (Option ModalResult) :=
  get_modal_selenium_go outcomes url max_retries 0 max_retries

end Rswd

namespace FixState

/-- Attempt loop of `get_modal_data_with_selenium` in
`request_lawyers_fix_state.py`.  This copy catches ONLY `TimeoutException`,
and its timeout handler builds the failure dictionary with `'error': str(e)`
although no name `e` is bound there — evaluating it raises
`NameError("name 'e' is not defined")`.  Any non-timeout exception is not
caught at all and escapes. -/
def get_modal_selenium_go (outcomes : Nat → Rswd.RenderOutcome) (url : String)
    (max_retries attempt remaining : Nat) : Except PyExc (Option ModalResult) :=
  match remaining with
  | 0 => .ok none
  | rem + 1 =>
    match outcomes attempt with
    | .modalHtml h =>
        let modal_data := extract_modal_data h
        .ok (some
          { extraction_method := "specific_modal_parser"
            content_loaded := true
            error := none
            url := url
            modal_data := some modal_data
            extraction_success := if truthyOptStr modal_data.firm_name then 5 else 3 })
    | .timeout =>
        if rem > 0 then get_modal_selenium_go outcomes url max_retries (attempt + 1) rem
        else .error (.nameError "name 'e' is not defined")
    | .excOther msg => .error (.generic msg)

/-- `get_modal_data_with_selenium(url, max_wait, max_retries, retry_delay)` of
`request_lawyers_fix_state.py`. -/
def get_modal_data_with_selenium (outcomes : Nat → Rswd.RenderOutcome) (url : String)
    (_max_wait max_retries _retry_delay : Nat) : Except PyExc (Option ModalResult) :=
  get_modal_selenium_go outcomes url max_retries 0 max_retries

end FixState

/-! ## Lawyer Enrichment Engine (`search_lawyer_with_updates`) -/

/-- One entry of the search response's `Data` list (`Nome`, `DetailUrl`). -/
structure SearchEntry where
  nome : Option String
  detailUrl : String
deriving Repr, DecidableEq

/-- Parsed JSON of the search POST: `{Success: bool, Data: [...]}`. -/
structure SearchResp where
  success : Bool
  data : List SearchEntry
deriving Repr, DecidableEq

/-- Parsed JSON of the detail GET: `Success`, whether the key `'Sociedades'`
is present in `Data`, and its value (`none` models JSON `null`). -/
structure DetailResp where
  success : Bool
  hasSociedadesKey : Bool
  sociedades : Option (List SocStub)
deriving Repr, DecidableEq

/-- Outcome of one `process_sociedade_async` task as observed through
`asyncio.gather(..., return_exceptions=True)`: a captured exception, or the
task's return value (`none` when the modal fetch failed and the task returned
`None`).  `gather` yields these in task-submission order, i.e. in the original
stub order. -/
inductive TaskResult where
  | exc (msg : String)
  | res (r : Option FinalResult)
deriving Repr, DecidableEq

/-- Environment for one `search_lawyer_with_updates` call: outcome of the
inner HTTP attempt `j` of outer attempt `i` for the search POST and the detail
GET, and the outcome of the partnership-detail task for stub index `i`. -/
structure SearchEnv where
  searchHttp : Nat → Nat → HttpAttempt SearchResp
  detailHttp : Nat → Nat → HttpAttempt DetailResp
  taskResult : Nat → TaskResult

namespace Rswd

/-- What the exception handlers of `search_lawyer_with_updates` do with a
caught exception.  The `except RequestException` clause checks
`hasattr(e,'response') and e.response and e.response.status_code in
[401, 403, 419] or "token" in str(e).lower()` and returns
`(record, False)`; every other exception retries, or gives up with
`(record, True)` on the last attempt. -/
inductive ExcAction where
  | sessionExpired
  | retry
  | giveUp
deriving Repr, DecidableEq

/-- Dispatch a caught exception to its handler's action (`isLast` is
`attempt >= max_retries - 1`). -/
def excAction (e : PyExc) (isLast : Bool) : ExcAction :=
  match e with
  | .requestException status msg =>
      if (match status with | some s => s = 401 || s = 403 || s = 419 | none => false)
          || pyContains (pyLower msg) "token" then .sessionExpired
      else if !isLast then .retry else .giveUp
  | _ => if !isLast then .retry else .giveUp

/-- Attempt loop of `search_lawyer_with_updates` — line-for-line identical in
`request_lawyers_with_society_retry_errorr_with_delay.py` and
`request_lawyers_fix_state.py` (the copies differ only in how
`enhanced_record` is initialized before the loop, see the two wrappers below).
`enhanced_record` is threaded because its mutations persist across retries. -/
def search_go (env : SearchEnv) (max_retries attempt remaining : Nat)
    (enhanced_record : LawyerRecord) : LawyerRecord × Bool :=
  match remaining with
  | 0 => (enhanced_record, true)
  | rem + 1 =>
    -- Step 1: initial search with retry
    match make_request_with_retry (env.searchHttp attempt) 4 with
    | .error e =>
        match excAction e (rem = 0) with
        | .sessionExpired => (enhanced_record, false)
        | .retry => search_go env max_retries (attempt + 1) rem enhanced_record
        | .giveUp => (enhanced_record, true)
    | .ok search_result =>
      if !(search_result.success && !search_result.data.isEmpty) then
        -- search failed or no results: retry, or give up keeping the record
        if rem > 0 then search_go env max_retries (attempt + 1) rem enhanced_record
        else (enhanced_record, true)
      else
        let entry := search_result.data.headD ⟨none, ""⟩
        -- compare and update full_name only if different
        let original_name := pyStrip enhanced_record.full_name
        let enhanced_record :=
          match entry.nome with
          | some external_name =>
              if external_name ≠ "" && pyStrip external_name ≠ "" then
                let external_name_clean := pyStrip external_name
                if pyUpper original_name ≠ pyUpper external_name_clean then
                  { enhanced_record with corrected_full_name := some external_name_clean }
                else enhanced_record
              else enhanced_record
          | none => enhanced_record
        -- Step 2: detail URL
        let detail_url := "https://cna.oab.org.br" ++ entry.detailUrl
        let enhanced_record := { enhanced_record with society_link := some detail_url }
        match make_request_with_retry (env.detailHttp attempt) 4 with
        | .error e =>
            match excAction e (rem = 0) with
            | .sessionExpired => (enhanced_record, false)
            | .retry => search_go env max_retries (attempt + 1) rem enhanced_record
            | .giveUp => (enhanced_record, true)
        | .ok detail_result =>
          if !(detail_result.success && detail_result.hasSociedadesKey) then
            (enhanced_record, true)
          else
            match detail_result.sociedades with
            | none => (enhanced_record, true)          -- sociedades_data is None
            | some sociedades_data =>
              if sociedades_data.isEmpty then (enhanced_record, true)
              else
                let enhanced_record := { enhanced_record with has_society := some true }
                -- basic info: the five stub fields are copied verbatim
                let basic_sociedades := sociedades_data
                let enhanced_record :=
                  { enhanced_record with society_basic_details := some basic_sociedades }
                -- fan out one task per stub (worker pool of 2) and gather the
                -- outcomes in task order
                let sociedades_results :=
                  (List.range sociedades_data.length).map env.taskResult
                let complete_details := sociedades_results.filterMap (fun r =>
                  match r with
                  | .exc _ => none       -- isinstance(result, Exception): logged, skipped
                  | .res none => none    -- task returned None: skipped
                  | .res (some d) => some d)
                let enhanced_record :=
                  { enhanced_record with society_complete_details := some complete_details }
                (enhanced_record, true)

/-- `search_lawyer_with_updates(insc, state, cookies, token, original_record,
max_retries, retry_delay)` of
`request_lawyers_with_society_retry_errorr_with_delay.py` (`insc`, `state`,
`cookies` and `token` only parameterize the request payloads, which live in
the environment). -/
def search_lawyer_with_updates (env : SearchEnv) (original_record : LawyerRecord)
    (max_retries : Nat) : LawyerRecord × Bool :=
  let enhanced_record := { original_record with
    processed := true
    has_society := some false
    corrected_full_name := none
    society_link := none
    society_basic_details := some []
    society_complete_details := some [] }
  search_go env max_retries 0 max_retries enhanced_record

end Rswd

namespace FixState

/-- `search_lawyer_with_updates(oab_number, estado_correto, cookies, token,
original_record, max_retries, retry_delay)` of
`request_lawyers_fix_state.py`: identical to the `Rswd` copy except that it
also overwrites `state` with `estado_correto` (the code from the external
identifier) when initializing `enhanced_record`; the attempt loop is
line-for-line the same, so `Rswd.search_go` is reused. -/
def search_lawyer_with_updates (env : SearchEnv) (estado_correto : String)
    (original_record : LawyerRecord) (max_retries : Nat) : LawyerRecord × Bool :=
  let enhanced_record := { original_record with
    processed := true
    has_society := some false
    corrected_full_name := none
    society_link := none
    society_basic_details := some []
    society_complete_details := some []
    state := some estado_correto }
  Rswd.search_go env max_retries 0 max_retries enhanced_record

end FixState

/-! ## Session Manager (`oab_scraper_modified.py`, with an identically
structured copy in `request_100s.py`) -/

namespace Oab100

/-- The module-level session cell: `global_requests_session` (a session is
identified by the serial number of its construction), the use counter
`requests_session_use_count`, and a fresh-name supply standing for "construct
a new `requests.Session()`". -/
structure SessionCell where
  globalSession : Option Nat
  useCount : Nat
  nextId : Nat
deriving Repr, DecidableEq

/-- `MAX_REQUESTS_PER_SESSION = 100`. -/
def MAX_REQUESTS_PER_SESSION : Nat := 100

/-- `get_requests_session_with_proxy_managed()`: if no session exists or the
counter reached the budget, close the old session (inert in the model) and
construct a new one with the counter reset to 0 (`createOk` is whether the
construction succeeds; on failure the cell is emptied and `None` is returned
before the increment).  Every successful call then increments the counter and
returns the current session. -/
def get_requests_session_with_proxy_managed (createOk : Bool) (cell : SessionCell) :
    Option Nat × SessionCell :=
  if cell.globalSession = none || decide (cell.useCount ≥ MAX_REQUESTS_PER_SESSION) then
    if createOk then
      let cell : SessionCell :=
        { globalSession := some cell.nextId, useCount := 0, nextId := cell.nextId + 1 }
      (cell.globalSession, { cell with useCount := cell.useCount + 1 })
    else
      (none, { globalSession := none, useCount := 0, nextId := cell.nextId })
  else
    (cell.globalSession, { cell with useCount := cell.useCount + 1 })

/-- The empty initial cell (`global_requests_session = None`,
`requests_session_use_count = 0`). -/
def initialCell : SessionCell := { globalSession := none, useCount := 0, nextId := 0 }

/-- The cell after `n` successful acquisitions starting from the empty cell. -/
def acquireIter : Nat → SessionCell
  | 0 => initialCell
  | n + 1 => (get_requests_session_with_proxy_managed true (acquireIter n)).snd

/-- The session returned by successful acquisition number `n + 1` (0-indexed
`n`) starting from the empty cell. -/
def acquireResult (n : Nat) : Option Nat :=
  (get_requests_session_with_proxy_managed true (acquireIter n)).fst

/-- Outcome of the low-level request of one attempt inside the managed
`make_request_with_retry`, supplied by the environment.  `raiseStatus` is a
non-2xx response (`raise_for_status()` raises; `msg` is the exception text),
`excMsg` any other exception from the request call. -/
inductive ReqAttempt (α : Type) where
  | proxyError (msg : String)
  | respNone
  | raiseStatus (msg : String)
  | excMsg (msg : String)
  | ok (body : α)
deriving Repr, DecidableEq

/-- Observable effects of one `make_request_with_retry` call: how many times
the exception handlers force-invalidated the session
(`global_requests_session = None; requests_session_use_count = 0`), and how
many times `time.sleep(retry_delay)` ran. -/
structure ReqTrace where
  recycles : Nat
  sleeps : Nat
deriving Repr, DecidableEq

/-- `f"ProxyError na URL {url}: {str(e)}"`. -/
def proxyErrMsg (url msg : String) : String := "ProxyError na URL " ++ url ++ ": " ++ msg

/-- Attempt loop of the managed `make_request_with_retry` in
`oab_scraper_modified.py` (same structure in `request_100s.py`).  Each attempt
acquires the managed session; a raised failure (proxy error, non-2xx, other
exception) is caught by a handler that closes and force-invalidates the
session, then sleeps and retries or — on the last attempt — re-raises a plain
`Exception` wrapping the last error text.  A `None` response or a failed
session acquisition sleeps and retries WITHOUT invalidating (their `raise`
only happens on the last attempt, where it is then caught by the general
handler). -/
def make_request_with_retry_go (f : Nat → ReqAttempt α) (createOk : Nat → Bool) (url : String)
    (max_retries attempt remaining : Nat) (cell : SessionCell) (tr : ReqTrace) :
    Except PyExc α × SessionCell × ReqTrace :=
  match remaining with
  | 0 => (.error (.generic ("Request failed after " ++ toString max_retries ++ " attempts")),
          cell, tr)
  | rem + 1 =>
    let acq := get_requests_session_with_proxy_managed (createOk attempt) cell
    let cell := acq.snd
    match acq.fst with
    | none =>
        if rem > 0 then
          make_request_with_retry_go f createOk url max_retries (attempt + 1) rem cell
            { tr with sleeps := tr.sleeps + 1 }
        else
          (.error (.generic (wrapFailMsg max_retries
             "Failed to get requests session after all retries")),
           { cell with globalSession := none, useCount := 0 },
           { tr with recycles := tr.recycles + 1 })
    | some _ =>
      match f attempt with
      | .ok r => (.ok r, cell, tr)
      | .respNone =>
          if rem > 0 then
            make_request_with_retry_go f createOk url max_retries (attempt + 1) rem cell
              { tr with sleeps := tr.sleeps + 1 }
          else
            (.error (.generic (wrapFailMsg max_retries "Response is None after all retries")),
             { cell with globalSession := none, useCount := 0 },
             { tr with recycles := tr.recycles + 1 })
      | .proxyError msg =>
          let cell := { cell with globalSession := none, useCount := 0 }
          let tr := { tr with recycles := tr.recycles + 1 }
          if rem > 0 then
            make_request_with_retry_go f createOk url max_retries (attempt + 1) rem cell
              { tr with sleeps := tr.sleeps + 1 }
          else
            (.error (.generic (wrapFailMsg max_retries (proxyErrMsg url msg))), cell, tr)
      | .raiseStatus msg =>
          let cell := { cell with globalSession := none, useCount := 0 }
          let tr := { tr with recycles := tr.recycles + 1 }
          if rem > 0 then
            make_request_with_retry_go f createOk url max_retries (attempt + 1) rem cell
              { tr with sleeps := tr.sleeps + 1 }
          else
            (.error (.generic (wrapFailMsg max_retries msg)), cell, tr)
      | .excMsg msg =>
          let cell := { cell with globalSession := none, useCount := 0 }
          let tr := { tr with recycles := tr.recycles + 1 }
          if rem > 0 then
            make_request_with_retry_go f createOk url max_retries (attempt + 1) rem cell
              { tr with sleeps := tr.sleeps + 1 }
          else
            (.error (.generic (wrapFailMsg max_retries msg)), cell, tr)

/-- `make_request_with_retry(method, url, max_retries, retry_delay, ...)` on a
given starting cell, with zeroed effect counters. -/
def make_request_with_retry (f : Nat → ReqAttempt α) (createOk : Nat → Bool) (url : String)
    (max_retries : Nat) (cell : SessionCell) : Except PyExc α × SessionCell × ReqTrace :=
  make_request_with_retry_go f createOk url max_retries 0 max_retries cell ⟨0, 0⟩

/-- Does this attempt outcome raise an exception (and hence reach a handler
that force-invalidates the session)? -/
def raisingFailure : ReqAttempt α → Bool
  | .proxyError _ => true
  | .raiseStatus _ => true
  | .excMsg _ => true
  | _ => false

/-- The `error_msg` text the handlers record for a failed attempt. -/
def lastErrText (url : String) : ReqAttempt α → String
  | .proxyError msg => proxyErrMsg url msg
  | .raiseStatus msg => msg
  | .excMsg msg => msg
  | .respNone => "Response is None after all retries"
  | .ok _ => ""

end Oab100

/-! ## Concrete fixtures used by witnesses and counterexamples -/

/-- A concrete partnership stub. -/
def exStub : SocStub :=
  { insc := "12.345"
    nomeSoci := "SOUZA E LIMA ADVOGADOS"
    idtSoci := "9"
    siglUf := "SP"
    url := "/Home/DetailSociedade?id=9" }

/-- A concrete successful modal extraction result. -/
def exModalResult : ModalResult :=
  { extraction_method := "specific_modal_parser"
    content_loaded := true
    error := none
    url := "https://cna.oab.org.br/Home/DetailSociedade?id=9"
    modal_data := some
      { firm_name := some "SOUZA E LIMA ADVOGADOS"
        inscricao := some "12.345"
        estado := some "SP"
        situacao := some "Ativa"
        endereco := none
        telefones := none
        socios := [] }
    extraction_success := 5 }

/-- A concrete enriched partnership detail. -/
def exFinal : FinalResult :=
  { lawyer_name := "ANA SOUZA"
    lawyer_state := "SP"
    lawyer_regnum := "1"
    basic_info := exStub
    modal_data := exModalResult }

/-- A fully processed record whose `oab_id` region (`SP`) disagrees with its
stored region (`RJ`): `processed=true`, `has_society=true`, both detail lists
non-empty. -/
def exMismatchRec : LawyerRecord :=
  { full_name := "ANA SOUZA"
    oab_id := some "SP_1"
    state := some "RJ"
    processed := true
    has_society := some true
    corrected_full_name := some "ANA DE SOUZA"
    society_link := some "https://cna.oab.org.br/Home/Detail?id=1"
    society_basic_details := some [exStub]
    society_complete_details := some [exFinal]
    rest := [("id", "41")] }

/-- A fully processed, consistent record: matching regions, `processed=true`,
`has_society=true`, both detail lists non-empty. -/
def exCompleteRec : LawyerRecord :=
  { full_name := "ANA SOUZA"
    oab_id := some "SP_1"
    state := some "SP"
    processed := true
    has_society := some true
    corrected_full_name := none
    society_link := some "https://cna.oab.org.br/Home/Detail?id=1"
    society_basic_details := some [exStub]
    society_complete_details := some [exFinal]
    rest := [("id", "41")] }

/-- Fixture markup for the modal parser: a known firm name in the title, the
labeled fields, and a 2-row partner table. -/
def fxModal : Html :=
  .elem "div" [("class", "modal-content")] (.ofList [
    .elem "div" [("class", "modal-title")] (.ofList [
      .elem "b" [] (.ofList [.text "SOUZA E LIMA ADVOGADOS"])]),
    .elem "span" [("class", "label")] (.ofList [.text "Ativa"]),
    .elem "p" [] (.ofList [
      .elem "b" [] (.ofList [.text "Inscrição:"]), .text " 12.345"]),
    .elem "p" [] (.ofList [
      .elem "b" [] (.ofList [.text "Estado:"]), .text " PR"]),
    .elem "div" [("class", "socContainer")] (.ofList [
      .elem "table" [] (.ofList [
        .elem "tr" [("data-cnalink", "/l1")] (.ofList [
          .elem "td" [] (.ofList [.text "1"]),
          .elem "td" [] (.ofList [.text "ANA SOUZA"]),
          .elem "td" [] (.ofList [.text ""]),
          .elem "td" [] (.ofList [.text "Sócio"])]),
        .elem "tr" [("data-cnalink", "/l2")] (.ofList [
          .elem "td" [] (.ofList [.text "2"]),
          .elem "td" [] (.ofList [.text "JOSE LIMA"]),
          .elem "td" [] (.ofList [.text ""]),
          .elem "td" [] (.ofList [.text "Sócio"])])])])])

/-- Fixture markup missing every labeled node and the partner table. -/
def fxEmpty : Html := .elem "div" [] (.ofList [.text "nothing here"])

/-- A record that has not been processed yet (input to the enrichment calls). -/
def exPendingRec : LawyerRecord :=
  { full_name := "ANA SOUZA"
    oab_id := some "SP_1"
    state := some "SP"
    processed := false
    has_society := none
    corrected_full_name := none
    society_link := none
    society_basic_details := none
    society_complete_details := none
    rest := [("id", "41")] }

/-- Environment in which the search POST answers HTTP 401 on every attempt
(`raise_for_status()` raises `requests.exceptions.HTTPError`, a
`RequestException` subclass, with this text). -/
def env401 : SearchEnv :=
  { searchHttp := fun _ _ =>
      .raiseStatus 401 "401 Client Error: Unauthorized for url: https://cna.oab.org.br/Home/Search"
    detailHttp := fun _ _ => .respNone
    taskResult := fun _ => .res none }

/-- The enhanced record `search_lawyer_with_updates` builds from
`exPendingRec` before its attempt loop. -/
def exPendingEnhanced : LawyerRecord :=
  { exPendingRec with
    processed := true
    has_society := some false
    corrected_full_name := none
    society_link := none
    society_basic_details := some []
    society_complete_details := some [] }

/-- Attempt outcomes for the C6 counterexample: a null response on the first
attempt, success on the second. -/
def nullThenOk : Nat → Oab100.ReqAttempt Nat :=
  fun i => if i = 0 then .respNone else .ok 7

/-- Attempt outcomes for the C6 witness: raised proxy errors on the first two
attempts, success on the third. -/
def proxyTwiceThenOk : Nat → Oab100.ReqAttempt Nat :=
  fun i => if i < 2 then .proxyError "boom" else .ok 5

/-- A second concrete stub. -/
def exStub2 : SocStub :=
  { insc := "67.890"
    nomeSoci := "LIMA ASSOCIADOS"
    idtSoci := "10"
    siglUf := "SP"
    url := "/Home/DetailSociedade?id=10" }

/-- Environment for the C7 witness: the search and detail calls succeed on the
first attempt with two stubs; the first stub's task raises, the second
returns a detail. -/
def envFanout : SearchEnv :=
  { searchHttp := fun _ _ => .ok { success := true, data := [{ nome := some "ANA SOUZA", detailUrl := "/Home/Detail?id=1" }] }
    detailHttp := fun _ _ => .ok { success := true, hasSociedadesKey := true, sociedades := some [exStub, exStub2] }
    taskResult := fun i => if i = 0 then .exc "render died" else .res (some exFinal) }

/-- The fields of a `LawyerRecord` that `search_lawyer_with_updates` never
writes (everything except the six enrichment keys and `state`): both records
agree on them. -/
def framePreserved (a b : LawyerRecord) : Prop :=
  a.state = b.state ∧ a.full_name = b.full_name ∧ a.oab_id = b.oab_id
    ∧ a.processed = b.processed ∧ a.rest = b.rest

/-! ## Theorems -/

/-- Claim C1: whenever the external identifier yields a region code that
differs from the stored region code — no matter the other fields, in
particular for a record with `processed=true`, `has_society=true` and both
detail lists non-empty — `should_process_record` returns needs-processing with
the state-mismatch reason, and `clean_inconsistent_data` returns a record with
`processed=false`, `has_society=false` and the keys `corrected_full_name`,
`society_link`, `society_basic_details`, `society_complete_details` absent. -/
theorem claim1_state_mismatch_priority_and_reset (r : LawyerRecord) (c : String)
    (htr : truthyOptStr r.oab_id = true)
    (hex : FixState.extract_state_from_oab_id r.oab_id = some c)
    (hne : r.state ≠ some c) :
    FixState.should_process_record r = (true, FixState.estadoInconsistenteReason r.state c)
    ∧ (FixState.clean_inconsistent_data r).processed = false
    ∧ (FixState.clean_inconsistent_data r).has_society = some false
    ∧ (FixState.clean_inconsistent_data r).corrected_full_name = none
    ∧ (FixState.clean_inconsistent_data r).society_link = none
    ∧ (FixState.clean_inconsistent_data r).society_basic_details = none
    ∧ (FixState.clean_inconsistent_data r).society_complete_details = none := by
  refine ⟨?_, rfl, rfl, rfl, rfl, rfl, rfl⟩
  have hm : FixState.mismatchFrom r = some c := by
    unfold FixState.mismatchFrom
    simp [htr, hex, hne]
  unfold FixState.should_process_record
  rw [hm]

/-- Witness for C1 at the record `SP_1`/`RJ`. -/
theorem claim1_witness :
    (truthyOptStr exMismatchRec.oab_id = true
      ∧ FixState.extract_state_from_oab_id exMismatchRec.oab_id = some "SP"
      ∧ exMismatchRec.state ≠ some "SP")
    ∧ (FixState.should_process_record exMismatchRec
        = (true, FixState.estadoInconsistenteReason exMismatchRec.state "SP")
      ∧ (FixState.clean_inconsistent_data exMismatchRec).processed = false
      ∧ (FixState.clean_inconsistent_data exMismatchRec).has_society = some false
      ∧ (FixState.clean_inconsistent_data exMismatchRec).corrected_full_name = none
      ∧ (FixState.clean_inconsistent_data exMismatchRec).society_link = none
      ∧ (FixState.clean_inconsistent_data exMismatchRec).society_basic_details = none
      ∧ (FixState.clean_inconsistent_data exMismatchRec).society_complete_details = none) :=
  ⟨⟨by decide, by decide, by decide⟩,
   claim1_state_mismatch_priority_and_reset exMismatchRec "SP"
     (by decide) (by decide) (by decide)⟩

/-- Claim C2: when the state-mismatch priority check does not fire, the
`fix_state` classifier coincides with the plain classifier, which returns
"no processing needed" (`(false, "completo")`) exactly when `processed` is
true, `has_society` is recorded as a boolean, and — when it is true — both
detail lists are non-empty; otherwise the first matching reason in priority
order `não processado`, `sociedades incompletas`,
`status de sociedade não determinado` is returned. -/
theorem claim2_classifier_complete_iff (r : LawyerRecord)
    (h : FixState.stateMismatchCheck r = false) :
    FixState.should_process_record r = Rswd.should_process_record r
    ∧ (Rswd.should_process_record r = (false, "completo") ↔
        r.processed = true ∧ r.has_society ≠ none ∧
          (r.has_society = some true →
            r.society_basic_details.getD [] ≠ [] ∧ r.society_complete_details.getD [] ≠ []))
    ∧ (r.processed = false → Rswd.should_process_record r = (true, "não processado"))
    ∧ (r.processed = true → r.has_society = some true →
        (r.society_basic_details.getD [] = [] ∨ r.society_complete_details.getD [] = []) →
        Rswd.should_process_record r = (true, "sociedades incompletas"))
    ∧ (r.processed = true → r.has_society = none →
        Rswd.should_process_record r = (true, "status de sociedade não determinado")) := by
  have hm : FixState.mismatchFrom r = none := by
    unfold FixState.stateMismatchCheck at h
    exact Option.not_isSome_iff_eq_none.mp (by simp [h])
  refine ⟨?_, ?_, ?_, ?_, ?_⟩
  · unfold FixState.should_process_record Rswd.should_process_record
    rw [hm]
  · unfold Rswd.should_process_record
    by_cases hp : r.processed = false
    · simp [hp]
    · have hp' : r.processed = true := by revert hp; cases r.processed <;> simp
      rcases hs : r.has_society with _ | b
      · simp [hp', hs]
      · cases b
        · simp [hp', hs]
        · by_cases hb : r.society_basic_details.getD [] = []
          · simp [hp', hs, hb, List.isEmpty_iff]
          · by_cases hc : r.society_complete_details.getD [] = []
            · simp [hp', hs, hb, hc, List.isEmpty_iff]
            · simp [hp', hs, hb, hc, List.isEmpty_iff]
  · intro hp
    unfold Rswd.should_process_record
    simp [hp]
  · intro hp hs hempty
    unfold Rswd.should_process_record
    rcases hempty with he | he <;> simp [hp, hs, he, List.isEmpty_iff]
  · intro hp hs
    unfold Rswd.should_process_record
    simp [hp, hs]

/-- Witness for C2 at a fully consistent, complete record. -/
theorem claim2_witness :
    FixState.stateMismatchCheck exCompleteRec = false
    ∧ Rswd.should_process_record exCompleteRec = (false, "completo") :=
  ⟨by decide,
   ((claim2_classifier_complete_iff exCompleteRec (by decide)).2.1).mpr (by decide)⟩

/-- Claim C3 (code evaluated at the failing input): when the search POST
answers HTTP 401 on every attempt, `make_request_with_retry` re-raises the
failure as a PLAIN wrapped `Exception` (the `RequestException` class carrying
the 401 is lost), so the `except RequestException` auth branch in
`search_lawyer_with_updates` never fires and the call returns
`session_still_valid = true` after exhausting its retries — not `false` as
the claim requires.  The last conjunct shows the branch itself WOULD map such
an exception to the session-expired return, confirming the intent. -/
theorem claim3_auth_failure_not_propagated :
    (Rswd.search_lawyer_with_updates env401 exPendingRec 4).snd = true
    ∧ (Rswd.search_lawyer_with_updates env401 exPendingRec 4).fst = exPendingEnhanced
    ∧ Rswd.make_request_with_retry (env401.searchHttp 0) 4
        = .error (.generic ("Request failed after 4 attempts: " ++
            "401 Client Error: Unauthorized for url: https://cna.oab.org.br/Home/Search"))
    ∧ Rswd.excAction
        (.requestException (some 401)
          "401 Client Error: Unauthorized for url: https://cna.oab.org.br/Home/Search") false
        = .sessionExpired := by
  refine ⟨by decide, by decide, rfl, by decide⟩

/-- Claim C4 (code evaluated at the failing input): in the
`request_lawyers_fix_state.py` copy, a timeout on every attempt makes the
final `except TimeoutException` handler evaluate the unbound name `e`
(`'error': str(e)`), so a `NameError` escapes; a non-timeout exception is not
caught at all and escapes on the first attempt.  The
`request_lawyers_with_society_retry_errorr_with_delay.py` copy, by contrast,
returns the structured failure dictionary (`content_loaded=false`, an error
message, `extraction_success=0`) as the claim describes. -/
theorem claim4_modal_failure_exception_escapes :
    FixState.get_modal_data_with_selenium (fun _ => .timeout)
        "https://cna.oab.org.br/Home/DetailSociedade?id=9" 25 4 2
      = .error (.nameError "name 'e' is not defined")
    ∧ FixState.get_modal_data_with_selenium
        (fun _ => .excOther "Could not create webdriver with proxy")
        "https://cna.oab.org.br/Home/DetailSociedade?id=9" 25 4 2
      = .error (.generic "Could not create webdriver with proxy")
    ∧ Rswd.get_modal_data_with_selenium (fun _ => .timeout)
        "https://cna.oab.org.br/Home/DetailSociedade?id=9" 25 4 2
      = .ok (some
          { extraction_method := "specific_modal_parser"
            content_loaded := false
            error := some ("Timeout waiting for modal to appear at " ++
              "https://cna.oab.org.br/Home/DetailSociedade?id=9")
            url := "https://cna.oab.org.br/Home/DetailSociedade?id=9"
            modal_data := none
            extraction_success := 0 }) := by
  refine ⟨rfl, rfl, rfl⟩

/-- C8 counterexample: the `request_lawyers_fix_state.py` copy of
`extract_state_from_oab_id` returns `"XX"` for `"XX_123"` although `"XX"` is
not a member of the 27-element valid-region set — it does not validate through
the strict cleaner. -/
theorem claim8_counterexample :
    FixState.extract_state_from_oab_id (some "XX_123") = some "XX"
    ∧ "XX" ∉ Checker.valid_states :=
  ⟨by decide, by decide⟩

/-- Claim C8 as amended: the `checker.py` copy of `extract_state_from_oab_id`
behaves as claimed — `"MG"` for `"MG_185929"`, `none` for `"xx"` (no
separator), and `none` for any left segment outside the 27-element set (every
`some` it returns is a member) — while the `request_lawyers_fix_state.py`
copy checks only that the left segment is 2 alphabetic characters after
uppercasing, so it accepts segments such as `"XX"`. -/
theorem claim8_amended_extract_state :
    Checker.extract_state_from_oab_id (some "MG_185929") = some "MG"
    ∧ Checker.extract_state_from_oab_id (some "xx") = none
    ∧ (∀ (oab_id : Option String) (c : String),
        Checker.extract_state_from_oab_id oab_id = some c → c ∈ Checker.valid_states)
    ∧ FixState.extract_state_from_oab_id (some "XX_123") = some "XX" := by
  refine ⟨by decide, by decide, ?_, by decide⟩
  intro oab_id c h
  unfold Checker.extract_state_from_oab_id at h
  split at h
  · exact absurd h (by simp)
  · simp only [] at h
    split at h
    · unfold Checker.clean_and_validate_state at h
      split at h
      · exact absurd h (by simp)
      · simp only [] at h
        split at h <;> split at h <;>
          first
            | (rename_i hc
               rw [Option.some.injEq] at h
               subst h
               exact List.mem_of_elem_eq_true hc)
            | exact absurd h (by simp)
    · exact absurd h (by simp)

/-- Witness for C8 (amended): the universal conjunct applied at `"SP_77"`. -/
theorem claim8_witness :
    Checker.extract_state_from_oab_id (some "SP_77") = some "SP"
    ∧ "SP" ∈ Checker.valid_states :=
  ⟨by decide, claim8_amended_extract_state.2.2.1 (some "SP_77") "SP" (by decide)⟩

/-- Claim C9: `extract_modal_data` is a total function of the markup: on the
fixture with a known firm name, labeled fields and a 2-row partner table it
returns exactly the expected `firm_name`, `estado` and 2 partner rows; on
markup missing every labeled node it returns `none` for each labeled field
and an empty partner list (no exception is possible: the embedding is a total
function). -/
theorem claim9_extract_modal_fixtures :
    (extract_modal_data fxModal).firm_name = some "SOUZA E LIMA ADVOGADOS"
    ∧ (extract_modal_data fxModal).estado = some "PR"
    ∧ (extract_modal_data fxModal).socios.length = 2
    ∧ (extract_modal_data fxEmpty).firm_name = none
    ∧ (extract_modal_data fxEmpty).inscricao = none
    ∧ (extract_modal_data fxEmpty).estado = none
    ∧ (extract_modal_data fxEmpty).situacao = none
    ∧ (extract_modal_data fxEmpty).endereco = none
    ∧ (extract_modal_data fxEmpty).telefones = none
    ∧ (extract_modal_data fxEmpty).socios = [] := by
  refine ⟨by decide, by decide, by decide, by decide, by decide,
    by decide, by decide, by decide, by decide, by decide⟩

/-- Helper for C5: closed form of the session cell after `n + 1` successful
acquisitions — the live session is number `n / 100`, the counter is
`n % 100 + 1`, and `n / 100 + 1` sessions have been constructed. -/
theorem acquireIter_closed_form (n : Nat) :
    Oab100.acquireIter (n + 1) =
      { globalSession := some (n / 100), useCount := n % 100 + 1, nextId := n / 100 + 1 } := by
  induction n with
  | zero => decide
  | succ k ih =>
    have step : Oab100.acquireIter (k + 2)
        = (Oab100.get_requests_session_with_proxy_managed true (Oab100.acquireIter (k + 1))).snd :=
      rfl
    rw [step, ih]
    unfold Oab100.get_requests_session_with_proxy_managed Oab100.MAX_REQUESTS_PER_SESSION
    by_cases hr : k % 100 + 1 ≥ 100
    · have h1 : (k + 1) / 100 = k / 100 + 1 := by omega
      have h2 : (k + 1) % 100 = 0 := by omega
      simp [hr, h1, h2]
    · have h1 : (k + 1) / 100 = k / 100 := by omega
      have h2 : (k + 1) % 100 = k % 100 + 1 := by omega
      simp [hr, h1, h2]

/-- Helper for C5: successful acquisition number `n + 1` returns session
number `n / 100`. -/
theorem acquireResult_closed_form (n : Nat) :
    Oab100.acquireResult n = some (n / 100) := by
  cases n with
  | zero => decide
  | succ k =>
    unfold Oab100.acquireResult
    rw [acquireIter_closed_form k]
    unfold Oab100.get_requests_session_with_proxy_managed Oab100.MAX_REQUESTS_PER_SESSION
    by_cases hr : k % 100 + 1 ≥ 100
    · have h1 : (k + 1) / 100 = k / 100 + 1 := by omega
      simp [hr, h1]
    · have h1 : (k + 1) / 100 = k / 100 := by omega
      simp [hr, h1]

/-- Claim C5: starting from the empty cell, successful acquisition number
`n + 1` returns session number `n / 100` (so each call returns the current
session and the 101st call returns a session distinct from the 100th, with
the counter reset to zero before its increment), and no session number is
ever returned by more than 100 acquisitions. -/
theorem claim5_session_budget :
    (∀ n, Oab100.acquireResult n = some (n / 100))
    ∧ Oab100.acquireResult 100 ≠ Oab100.acquireResult 99
    ∧ (Oab100.acquireIter 101).useCount = 1
    ∧ (∀ (n : Nat) (s : Nat),
        ((Finset.range n).filter (fun i => Oab100.acquireResult i = some s)).card ≤ 100) := by
  refine ⟨acquireResult_closed_form, ?_, ?_, ?_⟩
  · rw [acquireResult_closed_form 100, acquireResult_closed_form 99]
    decide
  · rw [show (101 : Nat) = 100 + 1 from rfl, acquireIter_closed_form 100]
  · intro n s
    have hsub : ((Finset.range n).filter (fun i => Oab100.acquireResult i = some s))
        ⊆ Finset.Icc (100 * s) (100 * s + 99) := by
      intro i hi
      rw [Finset.mem_filter, acquireResult_closed_form i, Option.some.injEq] at hi
      have := hi.2
      rw [Finset.mem_Icc]
      omega
    calc ((Finset.range n).filter (fun i => Oab100.acquireResult i = some s)).card
        ≤ (Finset.Icc (100 * s) (100 * s + 99)).card := Finset.card_le_card hsub
      _ = 100 := by rw [Nat.card_Icc]; omega

/-- Helper for C6: acquiring with a successful constructor always yields a
session. -/
theorem acquire_true_fst (cell : Oab100.SessionCell) :
    ∃ s, (Oab100.get_requests_session_with_proxy_managed true cell).fst = some s := by
  unfold Oab100.get_requests_session_with_proxy_managed
  split
  · exact ⟨cell.nextId, rfl⟩
  · rename_i hcond
    rcases hg : cell.globalSession with _ | s
    · rw [hg] at hcond; simp at hcond
    · exact ⟨s, by simp [hg]⟩

/-- Helper for C6: if the first `k` attempts are raising failures and attempt
`k` (0-indexed) succeeds, the managed retry loop returns the success with
exactly `k` session force-invalidations and `k` fixed-delay sleeps. -/
theorem mrwr_managed_succeeds {α : Type} (f : Nat → Oab100.ReqAttempt α) (createOk : Nat → Bool)
    (url : String) (m : Nat) (resp : α) (hcreate : ∀ i, createOk i = true) :
    ∀ (k attempt rem rc sl : Nat) (cell : Oab100.SessionCell),
      k < rem →
      (∀ i, i < k → Oab100.raisingFailure (f (attempt + i)) = true) →
      f (attempt + k) = .ok resp →
      (Oab100.make_request_with_retry_go f createOk url m attempt rem cell ⟨rc, sl⟩).1 = .ok resp
      ∧ (Oab100.make_request_with_retry_go f createOk url m attempt rem cell ⟨rc, sl⟩).2.2
          = ⟨rc + k, sl + k⟩ := by
  intro k
  induction k with
  | zero =>
    intro attempt rem rc sl cell hk hfail hsucc
    cases rem with
    | zero => omega
    | succ r =>
      obtain ⟨s, hs⟩ := acquire_true_fst cell
      rw [Nat.add_zero] at hsucc
      unfold Oab100.make_request_with_retry_go
      rw [hcreate attempt]
      simp [hs, hsucc]
  | succ k ih =>
    intro attempt rem rc sl cell hk hfail hsucc
    cases rem with
    | zero => omega
    | succ r =>
      have hr : r > 0 := by omega
      obtain ⟨s, hs⟩ := acquire_true_fst cell
      have hf0 : Oab100.raisingFailure (f attempt) = true := by
        have h0 := hfail 0 (by omega)
        rwa [Nat.add_zero] at h0
      have hfail' : ∀ i, i < k → Oab100.raisingFailure (f (attempt + 1 + i)) = true := by
        intro i hi
        have h1 := hfail (i + 1) (by omega)
        rwa [show attempt + (i + 1) = attempt + 1 + i by omega] at h1
      have hsucc' : f (attempt + 1 + k) = .ok resp := by
        rwa [show attempt + 1 + k = attempt + (k + 1) by omega]
      have harith1 : rc + (k + 1) = rc + 1 + k := by omega
      have harith2 : sl + (k + 1) = sl + 1 + k := by omega
      unfold Oab100.make_request_with_retry_go
      rw [hcreate attempt]
      cases hf : f attempt with
      | ok r' => rw [hf] at hf0; simp [Oab100.raisingFailure] at hf0
      | respNone => rw [hf] at hf0; simp [Oab100.raisingFailure] at hf0
      | proxyError msg =>
        simp only [hs, hf, if_pos hr]
        rw [harith1, harith2]
        exact ih (attempt + 1) r (rc + 1) (sl + 1) _ (by omega) hfail' hsucc'
      | raiseStatus msg =>
        simp only [hs, hf, if_pos hr]
        rw [harith1, harith2]
        exact ih (attempt + 1) r (rc + 1) (sl + 1) _ (by omega) hfail' hsucc'
      | excMsg msg =>
        simp only [hs, hf, if_pos hr]
        rw [harith1, harith2]
        exact ih (attempt + 1) r (rc + 1) (sl + 1) _ (by omega) hfail' hsucc'

/-- Helper for C6: if every attempt is a raising failure, the managed retry
loop raises the wrapped terminal failure carrying the last attempt's error
text. -/
theorem mrwr_managed_allfail {α : Type} (f : Nat → Oab100.ReqAttempt α) (createOk : Nat → Bool)
    (url : String) (m : Nat) (hcreate : ∀ i, createOk i = true) :
    ∀ (rem attempt rc sl : Nat) (cell : Oab100.SessionCell),
      0 < rem →
      (∀ i, i < rem → Oab100.raisingFailure (f (attempt + i)) = true) →
      (Oab100.make_request_with_retry_go f createOk url m attempt rem cell ⟨rc, sl⟩).1
        = .error (.generic (wrapFailMsg m (Oab100.lastErrText url (f (attempt + (rem - 1)))))) := by
  intro rem
  induction rem with
  | zero => intro attempt rc sl cell h; omega
  | succ r ih =>
    intro attempt rc sl cell _ hfail
    obtain ⟨s, hs⟩ := acquire_true_fst cell
    have hf0 : Oab100.raisingFailure (f attempt) = true := by
      have h0 := hfail 0 (by omega)
      rwa [Nat.add_zero] at h0
    unfold Oab100.make_request_with_retry_go
    rw [hcreate attempt]
    cases hf : f attempt with
    | ok r' => rw [hf] at hf0; simp [Oab100.raisingFailure] at hf0
    | respNone => rw [hf] at hf0; simp [Oab100.raisingFailure] at hf0
    | proxyError msg =>
      simp only [hs, hf]
      cases r with
      | zero => simp [Oab100.lastErrText, hf]
      | succ r' =>
        rw [if_pos (by omega : r' + 1 > 0)]
        have hfail' : ∀ i, i < r' + 1 → Oab100.raisingFailure (f (attempt + 1 + i)) = true := by
          intro i hi
          have h1 := hfail (i + 1) (by omega)
          rwa [show attempt + (i + 1) = attempt + 1 + i by omega] at h1
        have hidx : attempt + 1 + (r' + 1 - 1) = attempt + (r' + 1 + 1 - 1) := by omega
        rw [← hidx]
        exact ih (attempt + 1) (rc + 1) (sl + 1) _ (by omega) hfail'
    | raiseStatus msg =>
      simp only [hs, hf]
      cases r with
      | zero => simp [Oab100.lastErrText, hf]
      | succ r' =>
        rw [if_pos (by omega : r' + 1 > 0)]
        have hfail' : ∀ i, i < r' + 1 → Oab100.raisingFailure (f (attempt + 1 + i)) = true := by
          intro i hi
          have h1 := hfail (i + 1) (by omega)
          rwa [show attempt + (i + 1) = attempt + 1 + i by omega] at h1
        have hidx : attempt + 1 + (r' + 1 - 1) = attempt + (r' + 1 + 1 - 1) := by omega
        rw [← hidx]
        exact ih (attempt + 1) (rc + 1) (sl + 1) _ (by omega) hfail'
    | excMsg msg =>
      simp only [hs, hf]
      cases r with
      | zero => simp [Oab100.lastErrText, hf]
      | succ r' =>
        rw [if_pos (by omega : r' + 1 > 0)]
        have hfail' : ∀ i, i < r' + 1 → Oab100.raisingFailure (f (attempt + 1 + i)) = true := by
          intro i hi
          have h1 := hfail (i + 1) (by omega)
          rwa [show attempt + (i + 1) = attempt + 1 + i by omega] at h1
        have hidx : attempt + 1 + (r' + 1 - 1) = attempt + (r' + 1 + 1 - 1) := by omega
        rw [← hidx]
        exact ih (attempt + 1) (rc + 1) (sl + 1) _ (by omega) hfail'

/-- C6 counterexample: a null-response failure on the first attempt followed
by a 2xx success makes the managed retry return the success after one sleep,
but the session was force-invalidated 0 times — not `k = 1` times as the
claim requires for every failure kind. -/
theorem claim6_counterexample :
    (Oab100.make_request_with_retry nullThenOk (fun _ => true)
        "https://cna.oab.org.br/Home/Search" 4 Oab100.initialCell).1 = .ok 7
    ∧ (Oab100.make_request_with_retry nullThenOk (fun _ => true)
        "https://cna.oab.org.br/Home/Search" 4 Oab100.initialCell).2.2
      = { recycles := 0, sleeps := 1 } :=
  ⟨rfl, rfl⟩

/-- Claim C6 as amended: when the first `k < max_attempts` attempts fail by
RAISING an error (proxy error, non-2xx status, or any other exception) and
attempt `k` succeeds with a 2xx, the managed retry returns that response
immediately, having force-invalidated the session exactly `k` times and slept
the fixed delay exactly `k` times; and when every attempt raises, it raises a
terminal failure whose message wraps the last error text.  (A null-response
or failed-session-acquisition attempt sleeps and retries WITHOUT invalidating
the session, which is what the counterexample exhibits.) -/
theorem claim6_amended_retry_recycle {α : Type} (f : Nat → Oab100.ReqAttempt α)
    (createOk : Nat → Bool) (url : String) (cell : Oab100.SessionCell)
    (m k : Nat) (resp : α) (hcreate : ∀ i, createOk i = true) :
    (k < m → (∀ i, i < k → Oab100.raisingFailure (f i) = true) → f k = .ok resp →
      (Oab100.make_request_with_retry f createOk url m cell).1 = .ok resp
      ∧ (Oab100.make_request_with_retry f createOk url m cell).2.2
          = { recycles := k, sleeps := k })
    ∧ (0 < m → (∀ i, i < m → Oab100.raisingFailure (f i) = true) →
      (Oab100.make_request_with_retry f createOk url m cell).1
        = .error (.generic (wrapFailMsg m (Oab100.lastErrText url (f (m - 1)))))) := by
  constructor
  · intro hk hfail hsucc
    unfold Oab100.make_request_with_retry
    have h := mrwr_managed_succeeds f createOk url m resp hcreate k 0 m 0 0 cell hk
      (by intro i hi; rw [Nat.zero_add]; exact hfail i hi) (by rwa [Nat.zero_add])
    simpa using h
  · intro hm hfail
    unfold Oab100.make_request_with_retry
    have h := mrwr_managed_allfail f createOk url m hcreate m 0 0 0 cell hm
      (by intro i hi; rw [Nat.zero_add]; exact hfail i hi)
    simpa using h

/-- Witness for C6 (amended): two raised proxy errors then a success, with
`max_attempts = 4` — the success is returned with exactly 2 invalidations and
2 sleeps. -/
theorem claim6_witness :
    (Oab100.make_request_with_retry proxyTwiceThenOk (fun _ => true) "u" 4
        Oab100.initialCell).1 = .ok 5
    ∧ (Oab100.make_request_with_retry proxyTwiceThenOk (fun _ => true) "u" 4
        Oab100.initialCell).2.2 = { recycles := 2, sleeps := 2 } :=
  (claim6_amended_retry_recycle proxyTwiceThenOk (fun _ => true) "u" Oab100.initialCell 4 2 5
      (fun _ => rfl)).1 (by decide)
    (fun i hi => by
      have hcases : i = 0 ∨ i = 1 := by omega
      rcases hcases with h | h <;> subst h <;> rfl)
    rfl

/-- Helper: `make_request_with_retry` returns a first-attempt success
directly. -/
theorem mrwr_first_ok {α : Type} (f : Nat → HttpAttempt α) (r : α) (m : Nat)
    (hm : 0 < m) (h : f 0 = .ok r) :
    Rswd.make_request_with_retry f m = .ok r := by
  cases m with
  | zero => omega
  | succ k =>
    unfold Rswd.make_request_with_retry Rswd.make_request_with_retry_go
    rw [h]

/-- `framePreserved` is reflexive. -/
theorem framePreserved_refl (a : LawyerRecord) : framePreserved a a :=
  ⟨rfl, rfl, rfl, rfl, rfl⟩

/-- `framePreserved` is transitive. -/
theorem framePreserved_trans {a b c : LawyerRecord}
    (h1 : framePreserved a b) (h2 : framePreserved b c) : framePreserved a c := by
  obtain ⟨x1, x2, x3, x4, x5⟩ := h1
  obtain ⟨y1, y2, y3, y4, y5⟩ := h2
  exact ⟨x1.trans y1, x2.trans y2, x3.trans y3, x4.trans y4, x5.trans y5⟩

/-- Helper for C10: the attempt loop of `search_lawyer_with_updates` only
writes the enrichment fields — `state`, `full_name`, `oab_id`, `processed`
and the untouched keys of the record it is given all survive every branch. -/
theorem search_go_frame (env : SearchEnv) (m : Nat) :
    ∀ (rem attempt : Nat) (r : LawyerRecord),
      framePreserved (Rswd.search_go env m attempt rem r).fst r := by
  intro rem
  induction rem with
  | zero =>
    intro attempt r
    exact framePreserved_refl r
  | succ n ih =>
    intro attempt r
    unfold Rswd.search_go
    repeat' split
    all_goals
      first
        | exact framePreserved_refl _
        | exact ih _ _
        | exact framePreserved_trans (ih _ _) (by
            simp only [framePreserved]
            repeat' split <;> try simp)
        | (simp only [framePreserved]
           repeat' split <;> try simp)

/-- Claim C10: the `request_lawyers_fix_state.py` enrichment call overwrites
the stored `state` with the region code derived from the external identifier
on EVERY return path (search miss, retry exhaustion, session expiry and
success alike), while `full_name`, `oab_id` and every key outside the
documented enrichment fields keep their original values (the input record is
never mutated: the embedding copies it, as `original_record.copy()` does). -/
theorem claim10_state_overwrite_and_frame (env : SearchEnv) (estado_correto : String)
    (original_record : LawyerRecord) (max_retries : Nat) :
    (FixState.search_lawyer_with_updates env estado_correto original_record max_retries).fst.state
      = some estado_correto
    ∧ (FixState.search_lawyer_with_updates env estado_correto original_record
        max_retries).fst.full_name = original_record.full_name
    ∧ (FixState.search_lawyer_with_updates env estado_correto original_record
        max_retries).fst.oab_id = original_record.oab_id
    ∧ (FixState.search_lawyer_with_updates env estado_correto original_record
        max_retries).fst.rest = original_record.rest := by
  obtain ⟨h1, h2, h3, _, h5⟩ := search_go_frame env max_retries max_retries 0
    { original_record with
      processed := true
      has_society := some false
      corrected_full_name := none
      society_link := none
      society_basic_details := some []
      society_complete_details := some []
      state := some estado_correto }
  exact ⟨h1.trans rfl, h2.trans rfl, h3.trans rfl, h5.trans rfl⟩

/-- Helper for C7: when the first attempt's search POST and detail GET both
succeed and report a non-empty partnership list, the attempt loop finalizes
the record with `has_society=true`, the stubs stored verbatim, and
`society_complete_details` holding exactly the successful task results in
stub-index order (the name-comparison step only affects
`corrected_full_name`, abstracted by the existential). -/
theorem search_go_success_shape (env : SearchEnv) (M m : Nat)
    (sresp : SearchResp) (dresp : DetailResp) (stubs : List SocStub) (rec : LawyerRecord)
    (hsearch : env.searchHttp 0 0 = .ok sresp)
    (hsuccess : sresp.success = true) (hdata : sresp.data ≠ [])
    (hdetail : env.detailHttp 0 0 = .ok dresp)
    (hdsuccess : dresp.success = true) (hdkey : dresp.hasSociedadesKey = true)
    (hsoc : dresp.sociedades = some stubs) (hne : stubs ≠ []) :
    ∃ nm : Option String,
      Rswd.search_go env M 0 (m + 1) rec
        = ({ rec with
              corrected_full_name := nm
              society_link := some ("https://cna.oab.org.br"
                ++ (sresp.data.headD ⟨none, ""⟩).detailUrl)
              has_society := some true
              society_basic_details := some stubs
              society_complete_details :=
                some (((List.range stubs.length).map env.taskResult).filterMap (fun t =>
                  match t with
                  | .exc _ => none
                  | .res none => none
                  | .res (some d) => some d)) },
           true) := by
  have hde : sresp.data.isEmpty = false := by
    cases hd : sresp.data with
    | nil => exact absurd hd hdata
    | cons a as => rfl
  have hse : stubs.isEmpty = false := by
    cases h2 : stubs with
    | nil => exact absurd h2 hne
    | cons a as => rfl
  have hmr1 : Rswd.make_request_with_retry (env.searchHttp 0) 4 = .ok sresp :=
    mrwr_first_ok _ _ _ (by omega) hsearch
  have hmr2 : Rswd.make_request_with_retry (env.detailHttp 0) 4 = .ok dresp :=
    mrwr_first_ok _ _ _ (by omega) hdetail
  unfold Rswd.search_go
  rw [hmr1]
  simp only [hsuccess, hde, Bool.not_false, Bool.and_true, Bool.not_true, Bool.false_eq_true,
    if_false]
  rw [hmr2]
  simp only [hdsuccess, hdkey, Bool.and_self, Bool.not_true, Bool.false_eq_true, if_false]
  rw [hsoc]
  simp only [hse, Bool.false_eq_true, if_false]
  repeat' split
  all_goals exact ⟨_, rfl⟩

/-- Claim C7: for a lawyer whose detail payload carries a non-empty stub list,
the enrichment finalizes (returning, not aborting) with `has_society=true`,
the raw stubs stored verbatim, and `society_complete_details` equal to
exactly the successful task results in original stub order — task outcomes
that are exceptions or `None` are skipped. -/
theorem claim7_fanout_preserves_stub_order (env : SearchEnv) (original_record : LawyerRecord)
    (max_retries : Nat) (hm : 0 < max_retries)
    (sresp : SearchResp) (dresp : DetailResp) (stubs : List SocStub)
    (hsearch : env.searchHttp 0 0 = .ok sresp)
    (hsuccess : sresp.success = true) (hdata : sresp.data ≠ [])
    (hdetail : env.detailHttp 0 0 = .ok dresp)
    (hdsuccess : dresp.success = true) (hdkey : dresp.hasSociedadesKey = true)
    (hsoc : dresp.sociedades = some stubs) (hne : stubs ≠ []) :
    (Rswd.search_lawyer_with_updates env original_record max_retries).snd = true
    ∧ (Rswd.search_lawyer_with_updates env original_record max_retries).fst.has_society
        = some true
    ∧ (Rswd.search_lawyer_with_updates env original_record max_retries).fst.society_basic_details
        = some stubs
    ∧ (Rswd.search_lawyer_with_updates env original_record
        max_retries).fst.society_complete_details
        = some (((List.range stubs.length).map env.taskResult).filterMap (fun t =>
            match t with
            | .exc _ => none
            | .res none => none
            | .res (some d) => some d)) := by
  cases max_retries with
  | zero => omega
  | succ m =>
    obtain ⟨nm, heq⟩ := search_go_success_shape env (m + 1) m sresp dresp stubs
      { original_record with
        processed := true
        has_society := some false
        corrected_full_name := none
        society_link := none
        society_basic_details := some []
        society_complete_details := some [] }
      hsearch hsuccess hdata hdetail hdsuccess hdkey hsoc hne
    unfold Rswd.search_lawyer_with_updates
    rw [heq]
    exact ⟨rfl, rfl, rfl, rfl⟩

/-- Witness for C7: two stubs; the first task raises, the second succeeds —
`society_complete_details` holds exactly the one successful result. -/
theorem claim7_witness :
    (Rswd.search_lawyer_with_updates envFanout exPendingRec 4).snd = true
    ∧ (Rswd.search_lawyer_with_updates envFanout exPendingRec 4).fst.has_society = some true
    ∧ (Rswd.search_lawyer_with_updates envFanout exPendingRec 4).fst.society_basic_details
        = some [exStub, exStub2]
    ∧ (Rswd.search_lawyer_with_updates envFanout exPendingRec 4).fst.society_complete_details
        = some [exFinal] := by
  have h := claim7_fanout_preserves_stub_order envFanout exPendingRec 4 (by decide)
    { success := true, data := [{ nome := some "ANA SOUZA", detailUrl := "/Home/Detail?id=1" }] }
    { success := true, hasSociedadesKey := true, sociedades := some [exStub, exStub2] }
    [exStub, exStub2] rfl rfl (by decide) rfl rfl rfl rfl (by decide)
  refine ⟨h.1, h.2.1, h.2.2.1, ?_⟩
  rw [h.2.2.2]
  decide
